import Mathlib

/-!
Verification development for the empathic-layer emotional-AI core:
a shallow embedding of `src_python/core/state_machine.py`,
`src_python/core/config.py` and the gesture classifier / stabilizer of
`src_python/senses/vision_hands.py`, together with theorems settling the
frozen behavioural claims about the mood-decision engine and the
hand-gesture classifier.

Modelling conventions:
* Python floats (confidences, milliseconds) are modelled as `ℚ`; the code
  only compares, adds and subtracts them, so field arithmetic is exact.
* Geometry (`vision_hands.py`) uses `math.sqrt` / `math.atan2`, modelled
  over `ℝ` with `Real.sqrt` and `Complex.arg` (the exact mathematical
  functions the floats approximate); those definitions are necessarily
  noncomputable.
* `time.time()` is modelled as an explicit `now` parameter (seconds); the
  code multiplies by 1000 at each use site and the embedding mirrors that.
* `collections.deque(maxlen = n)` is a list that drops its oldest entries
  beyond `n` (`pushMax`).
* The subscriber callbacks `on_mood_change` / `on_reaction` are modelled
  as the `moodChangeEvent` / `emitted` components of the step result: the
  code invokes the callback exactly when the component is `some`.
-/

-- Batteries marks rational arithmetic `@[irreducible]`, which blocks
-- kernel evaluation by `decide`; restore reducibility for ground runs of
-- the engine (the kernel itself is unaffected by reducibility hints).
attribute [local semireducible] Rat.add Rat.sub Rat.mul Rat.inv Rat.ofScientific

/-- `EmotionLabel` from `config.py`. -/
inductive EmotionLabel where
  | HAPPY | SAD | SURPRISE | NEUTRAL | ANGRY | FEAR | DISGUST
deriving DecidableEq, Repr

/-- `GestureLabel` from `config.py` (`NONE` is itself a member). -/
inductive GestureLabel where
  | OPEN_PALM | THUMB_UP | HEART_HAND | INDEX_POINTING
  | CLOSED_FIST | OK_SIGN | PEACE_SIGN | NONE
deriving DecidableEq, Repr, Fintype

/-- `MoodState` from `config.py`. -/
inductive MoodState where
  | CALM | JOYFUL | EMPATHETIC | FOCUSED | SUPPORTIVE | CELEBRATORY | NEUTRAL
deriving DecidableEq, Repr

/-- One `(emotion, gesture)` entry of `EMOTION_GESTURE_REACTIONS`
(each entry of the Python dict has all three keys). -/
structure ReactionCfg where
  sfx : String
  mood : MoodState
  message : String
deriving DecidableEq, Repr

open EmotionLabel GestureLabel MoodState

/-- `EMOTION_GESTURE_REACTIONS` from `config.py`, as a partial map. -/
def EMOTION_GESTURE_REACTIONS : EmotionLabel → GestureLabel → Option ReactionCfg
  | .SAD, .HEART_HAND =>
      some ⟨"compassionate_chime.wav", .EMPATHETIC,
            "I sense you need support. I'm here for you."⟩
  | .HAPPY, .THUMB_UP =>
      some ⟨"excited_ping.wav", .CELEBRATORY,
            "That's wonderful! Let's celebrate together!"⟩
  | .SAD, .OPEN_PALM =>
      some ⟨"gentle_wave.wav", .SUPPORTIVE,
            "I see you. Take your time."⟩
  | .NEUTRAL, .INDEX_POINTING =>
      some ⟨"focus_click.wav", .FOCUSED,
            "I'm listening. Tell me more."⟩
  | .HAPPY, .HEART_HAND =>
      some ⟨"love_sparkle.wav", .JOYFUL,
            "Spreading joy together!"⟩
  | .SURPRISE, .OPEN_PALM =>
      some ⟨"discovery_chime.wav", .JOYFUL,
            "What an exciting discovery!"⟩
  | .NEUTRAL, .THUMB_UP =>
      some ⟨"approval_ding.wav", .CALM,
            "Got it! Moving forward."⟩
  | _, _ => none

/-- `EMOTION_AMBIENCE` from `config.py` (total on the enum, as in the dict). -/
def EMOTION_AMBIENCE : EmotionLabel → Option String
  | .HAPPY => some "happy_lofi.wav"
  | .SAD => some "gentle_rain.wav"
  | .NEUTRAL => some "calm_ambient.wav"
  | .SURPRISE => some "curious_sparkle.wav"
  | .ANGRY => some "calming_waves.wav"
  | .FEAR => some "safe_embrace.wav"
  | .DISGUST => some "fresh_breeze.wav"

/-- `MOOD_AMBIENCE` from `config.py` (total on the enum, as in the dict). -/
def MOOD_AMBIENCE : MoodState → Option String
  | .CALM => some "calm_ambient.wav"
  | .JOYFUL => some "happy_lofi.wav"
  | .EMPATHETIC => some "gentle_piano.wav"
  | .FOCUSED => some "focus_binaural.wav"
  | .SUPPORTIVE => some "warm_embrace.wav"
  | .CELEBRATORY => some "celebration_loop.wav"
  | .NEUTRAL => some "soft_hum.wav"

/-- `StateMachineConfig` from `config.py` (weights are unused by the engine). -/
structure StateMachineConfig where
  state_transition_cooldown_ms : ℚ := 500
  gesture_hold_duration_ms : ℚ := 300
  min_emotion_confidence : ℚ := 1/2
  min_gesture_confidence : ℚ := 3/5
deriving DecidableEq, Repr

/-- The default `StateMachineConfig()` instance. -/
def defaultSMConfig : StateMachineConfig := {}

/-- Append to a `deque(maxlen = n)`: newest at the tail, oldest dropped. -/
def pushMax {α : Type} (n : ℕ) (l : List α) (a : α) : List α :=
  let l' := l ++ [a]
  if n < l'.length then l'.drop (l'.length - n) else l'

namespace EmpatheticStateMachine

/-- `SensoryInput` from `state_machine.py`. -/
structure SensoryInput where
  emotion : Option EmotionLabel := none
  emotion_confidence : ℚ := 0
  gesture : Option GestureLabel := none
  gesture_confidence : ℚ := 0
  timestamp : ℚ := 0
deriving DecidableEq, Repr

/-- `Reaction` from `state_machine.py`. -/
structure Reaction where
  mood : MoodState
  sfx_to_play : Option String := none
  ambience_to_play : Option String := none
  message : Option String := none
  should_change_ambience : Bool := false
  timestamp : ℚ := 0
deriving DecidableEq, Repr

/-- `MoodHistory` from `state_machine.py`. -/
structure MoodHistory where
  mood : MoodState
  emotion : Option EmotionLabel
  gesture : Option GestureLabel
  timestamp : ℚ
  duration_ms : ℚ := 0
deriving DecidableEq, Repr

/-- The mutable fields of `EmpatheticStateMachine` (`__init__`). -/
structure State where
  current_mood : MoodState := .NEUTRAL
  current_emotion : Option EmotionLabel := none
  current_gesture : Option GestureLabel := none
  current_ambience : Option String := none
  last_state_change : ℚ := 0
  last_sfx_trigger : ℚ := 0
  gesture_start_time : ℚ := 0
  mood_history : List MoodHistory := []
  input_buffer : List SensoryInput := []
  emotion_stable_count : ℕ := 0
  gesture_stable_count : ℕ := 0
  last_stable_emotion : Option EmotionLabel := none
  last_stable_gesture : Option GestureLabel := none
deriving DecidableEq, Repr

/-- The freshly constructed machine state. -/
def initState : State := {}

/-- `_can_transition` (the caller supplies `now_ms = time.time() * 1000`). -/
def can_transition (cfg : StateMachineConfig) (s : State) (now_ms : ℚ) : Bool :=
  decide (now_ms - s.last_state_change ≥ cfg.state_transition_cooldown_ms)

/-- `_is_gesture_held` (the caller supplies `now_ms = time.time() * 1000`). -/
def is_gesture_held (cfg : StateMachineConfig) (s : State) (now_ms : ℚ) : Bool :=
  if s.gesture_start_time = 0 then false
  else decide (now_ms - s.gesture_start_time ≥ cfg.gesture_hold_duration_ms)

/-- `_stabilize_emotion`: the counter is compared (and, on acceptance, the
stable value overwritten) against `_last_stable_emotion`, exactly as the
source does. -/
def stabilize_emotion (s : State) (emotion : Option EmotionLabel) :
    State × Option EmotionLabel :=
  let s1 := if emotion = s.last_stable_emotion
            then { s with emotion_stable_count := s.emotion_stable_count + 1 }
            else { s with emotion_stable_count := 1 }
  if s1.emotion_stable_count ≥ 3 then
    ({ s1 with last_stable_emotion := emotion }, emotion)
  else
    (s1, s1.last_stable_emotion)

/-- `_stabilize_gesture` of the state machine (`now` in seconds; the source
sets `_gesture_start_time = time.time() * 1000 if gesture else 0`). -/
def stabilize_gesture (s : State) (gesture : Option GestureLabel) (now : ℚ) :
    State × Option GestureLabel :=
  let s1 := if gesture = s.last_stable_gesture
            then { s with gesture_stable_count := s.gesture_stable_count + 1 }
            else { s with gesture_stable_count := 1,
                          gesture_start_time := if gesture.isSome then now * 1000 else 0 }
  if s1.gesture_stable_count ≥ 2 then
    ({ s1 with last_stable_gesture := gesture }, gesture)
  else
    (s1, s1.last_stable_gesture)

/-- `_calculate_mood`: exact-pair table first, then gesture rules, then
emotion baseline, else `NEUTRAL`. -/
def calculate_mood (emotion : Option EmotionLabel) (gesture : Option GestureLabel) :
    MoodState :=
  let combo : Option MoodState :=
    match emotion, gesture with
    | some e, some g =>
        match EMOTION_GESTURE_REACTIONS e g with
        | some rc => some rc.mood
        | none => none
    | _, _ => none
  match combo with
  | some m => m
  | none =>
    if gesture = some GestureLabel.HEART_HAND then .SUPPORTIVE
    else if gesture = some GestureLabel.THUMB_UP then
      (if emotion = some EmotionLabel.HAPPY then .CELEBRATORY else .CALM)
    else if gesture = some GestureLabel.INDEX_POINTING then .FOCUSED
    else if gesture = some GestureLabel.OPEN_PALM then
      (if emotion = some EmotionLabel.SAD then .EMPATHETIC else .CALM)
    else if emotion = some EmotionLabel.HAPPY then .JOYFUL
    else if emotion = some EmotionLabel.SAD then .EMPATHETIC
    else if emotion = some EmotionLabel.ANGRY ∨ emotion = some EmotionLabel.FEAR then
      .SUPPORTIVE
    else .NEUTRAL

/-- Python truthiness of an `Optional[str]` (`None` and `""` are falsy). -/
def strTruthy : Option String → Bool
  | none => false
  | some s => decide (s ≠ "")

/-- `_get_reaction` (called by `process_input` after the state update, so
`s` is the updated state; `now` in seconds). -/
def get_reaction (cfg : StateMachineConfig) (s : State)
    (emotion : Option EmotionLabel) (gesture : Option GestureLabel)
    (new_mood : MoodState) (mood_changed : Bool) (now : ℚ) : Reaction :=
  let r0 : Reaction := { mood := new_mood, timestamp := now }
  let r1 :=
    match emotion, gesture with
    | some e, some g =>
        if is_gesture_held cfg s (now * 1000) then
          match EMOTION_GESTURE_REACTIONS e g with
          | some rc => { r0 with sfx_to_play := some rc.sfx, message := some rc.message }
          | none => r0
        else r0
    | _, _ => r0
  if mood_changed then
    match MOOD_AMBIENCE new_mood with
    | some a => { r1 with should_change_ambience := true, ambience_to_play := some a }
    | none =>
        match emotion with
        | some e =>
            match EMOTION_AMBIENCE e with
            | some a => { r1 with should_change_ambience := true, ambience_to_play := some a }
            | none => { r1 with should_change_ambience := true }
        | none => { r1 with should_change_ambience := true }
  else r1

/-- The observable outcome of one `process_input` call. `emitted` is the
return value (`none` models Python `None`); `moodChangeEvent` is `some`
exactly when `on_mood_change` is invoked. -/
structure StepResult where
  state : State
  newMood : MoodState
  moodChanged : Bool
  moodChangeEvent : Option (MoodState × MoodState)
  reaction : Reaction
  emitted : Option Reaction
deriving DecidableEq, Repr

/-- The confidence gate applied to the emotion sample at the top of
`process_input` (an enum member is always truthy in Python, so only
presence and the threshold matter). -/
def gate_emotion (cfg : StateMachineConfig) (inp : SensoryInput) :
    Option EmotionLabel :=
  match inp.emotion with
  | some e => if inp.emotion_confidence ≥ cfg.min_emotion_confidence then some e else none
  | none => none

/-- The confidence gate applied to the gesture sample at the top of
`process_input`. -/
def gate_gesture (cfg : StateMachineConfig) (inp : SensoryInput) :
    Option GestureLabel :=
  match inp.gesture with
  | some g => if inp.gesture_confidence ≥ cfg.min_gesture_confidence then some g else none
  | none => none

/-- `process_input` (`now` in seconds, standing for `time.time()` during
this tick). -/
def process_input (cfg : StateMachineConfig) (s : State)
    (inp : SensoryInput) (now : ℚ) : StepResult :=
  let s0 := { s with input_buffer := pushMax 10 s.input_buffer inp }
  let emotion : Option EmotionLabel := gate_emotion cfg inp
  let gesture : Option GestureLabel := gate_gesture cfg inp
  let p1 := stabilize_emotion s0 emotion
  let p2 := stabilize_gesture p1.1 gesture now
  let stable_emotion := p1.2
  let stable_gesture := p2.2
  let s3 := { p2.1 with current_emotion := stable_emotion,
                        current_gesture := stable_gesture }
  let new_mood := calculate_mood stable_emotion stable_gesture
  let mood_changed := decide (new_mood ≠ s3.current_mood) && can_transition cfg s3 (now * 1000)
  let s4 := if mood_changed then
              { s3 with current_mood := new_mood,
                        last_state_change := now * 1000,
                        mood_history := pushMax 100 s3.mood_history
                          { mood := new_mood, emotion := stable_emotion,
                            gesture := stable_gesture, timestamp := now } }
            else s3
  let moodChangeEvent := if mood_changed then some (s3.current_mood, new_mood) else none
  let reaction := get_reaction cfg s4 stable_emotion stable_gesture new_mood mood_changed now
  let emitted := if mood_changed || strTruthy reaction.sfx_to_play then some reaction else none
  { state := s4, newMood := new_mood, moodChanged := mood_changed,
    moodChangeEvent := moodChangeEvent, reaction := reaction, emitted := emitted }

/-- `reset` from `state_machine.py`. -/
def reset (_s : State) : State :=
  { current_mood := .NEUTRAL
    current_emotion := none
    current_gesture := none
    current_ambience := none
    last_state_change := 0
    last_sfx_trigger := 0
    gesture_start_time := 0
    emotion_stable_count := 0
    gesture_stable_count := 0
    last_stable_emotion := none
    last_stable_gesture := none
    mood_history := []
    input_buffer := [] }

/-- Run a sequence of ticks, collecting every step result in order. -/
def runOutputs (cfg : StateMachineConfig) (s : State) :
    List (SensoryInput × ℚ) → List StepResult
  | [] => []
  | (inp, now) :: rest =>
      let r := process_input cfg s inp now
      r :: runOutputs cfg r.state rest

/-- Final state after a sequence of ticks. -/
def runState (cfg : StateMachineConfig) (s : State) :
    List (SensoryInput × ℚ) → State
  | [] => s
  | (inp, now) :: rest => runState cfg (process_input cfg s inp now).state rest

/-- The inertness invariant of claim C2: Neutral mood, empty history,
absent stable and current emotion/gesture. -/
def Inert (s : State) : Prop :=
  s.current_mood = MoodState.NEUTRAL ∧ s.mood_history = [] ∧
  s.last_stable_emotion = none ∧ s.last_stable_gesture = none ∧
  s.current_emotion = none ∧ s.current_gesture = none

/-- A state whose stable emotion is already Happy (counter beyond the
threshold), mood Neutral, last transition at time 0. -/
def c5AcceptState : State :=
  { last_stable_emotion := some EmotionLabel.HAPPY, emotion_stable_count := 5 }

/-- Happy at confidence 0.9. -/
def c5HappyInput : SensoryInput :=
  { emotion := some EmotionLabel.HAPPY, emotion_confidence := 9/10 }

/-- A state in mood Joyful (accepted at t = 0) whose stable gesture is
already ThumbUp, so the candidate mood is Calm. -/
def c5RejectState : State :=
  { current_mood := MoodState.JOYFUL,
    last_stable_gesture := some GestureLabel.THUMB_UP, gesture_stable_count := 5 }

/-- ThumbUp at confidence 0.9. -/
def c5ThumbInput : SensoryInput :=
  { gesture := some GestureLabel.THUMB_UP, gesture_confidence := 9/10 }

/-- The tick fed to the engine in the stability-delay scenario of claim C1:
`emotion = Happy` at confidence 0.9, no gesture. -/
def happyTick (t : ℚ) : SensoryInput :=
  { emotion := some EmotionLabel.HAPPY, emotion_confidence := 9/10, timestamp := t }

end EmpatheticStateMachine

namespace HandGestureDetector

/-- The mutable fields of `HandGestureDetector` used by `_stabilize_gesture`:
`_gesture_history = deque(maxlen=5)` and `_last_stable_gesture = NONE`. -/
structure VisState where
  history : List GestureLabel := []
  last_stable : GestureLabel := .NONE
deriving DecidableEq, Repr

/-- The freshly constructed detector state. -/
def visInit : VisState := {}

/-- Keys of a multiset in first-occurrence order, mirroring insertion order
of `collections.Counter` over the history. -/
def firstKeys (h : List GestureLabel) : List GestureLabel :=
  h.foldl (fun acc a => if a ∈ acc then acc else acc ++ [a]) []

/-- `Counter(history).most_common(1)[0]`: the pair of the most frequent
label and its count; ties are broken by first occurrence, as `heapq`'s
stable selection does over `Counter`'s insertion-ordered items. -/
def mostCommon (h : List GestureLabel) : GestureLabel × ℕ :=
  match firstKeys h with
  | [] => (.NONE, 0)
  | k :: ks =>
      ks.foldl (fun b k' => if h.count k' > b.2 then (k', h.count k') else b)
        (k, h.count k)

/-- `HandGestureDetector._stabilize_gesture`: append to the 5-window; with
fewer than 3 samples return the raw label; otherwise update the stable
label when the most common label reaches `len // 2 + 1` and return the
(possibly updated) stable label. -/
def visStabilize (s : VisState) (g : GestureLabel) : VisState × GestureLabel :=
  let h := pushMax 5 s.history g
  if h.length < 3 then ({ s with history := h }, g)
  else
    let mc := mostCommon h
    if mc.2 ≥ h.length / 2 + 1 then
      ({ history := h, last_stable := mc.1 }, mc.1)
    else
      ({ s with history := h }, s.last_stable)

/-- All gesture labels (for the spec-side majority search). -/
def allGestures : List GestureLabel :=
  [.OPEN_PALM, .THUMB_UP, .HEART_HAND, .INDEX_POINTING,
   .CLOSED_FIST, .OK_SIGN, .PEACE_SIGN, .NONE]

/-- The gesture stabilizer exactly as claim C3 words it: a sliding window
(default 5) of recent raw labels whose stable output is updated to a label
exactly when that label occupies more than half the window, the previously
accepted stable label being emitted otherwise. -/
def claimStabilize (s : VisState) (g : GestureLabel) : VisState × GestureLabel :=
  let h := pushMax 5 s.history g
  match allGestures.find? (fun ℓ => decide (2 * h.count ℓ > h.length)) with
  | some ℓ => ({ history := h, last_stable := ℓ }, ℓ)
  | none => ({ s with history := h }, s.last_stable)

/-- A window already holding two OpenPalm labels (stable still `NONE`). -/
def c3MajState : VisState :=
  { history := [GestureLabel.OPEN_PALM, GestureLabel.OPEN_PALM] }

/-- A window holding three distinct labels (stable `THUMB_UP`). -/
def c3TieState : VisState :=
  { history := [GestureLabel.OPEN_PALM, GestureLabel.CLOSED_FIST,
                GestureLabel.PEACE_SIGN],
    last_stable := GestureLabel.THUMB_UP }

/-- `HandLandmark` from `vision_hands.py` (normalised image coordinates;
`z` is carried but unused by the 2-D geometry below, as in the source). -/
structure HandLandmark where
  x : ℝ
  y : ℝ
  z : ℝ := 0

instance : Inhabited HandLandmark := ⟨⟨0, 0, 0⟩⟩

noncomputable section

open Real

/-- `landmarks[i]` (every access in the source is guarded by the length-21
check, so indices are always in range and the default is never hit). -/
def nth (l : List HandLandmark) (i : ℕ) : HandLandmark := l.getD i default

/-- `_distance`: planar Euclidean distance. -/
def distance (p1 p2 : HandLandmark) : ℝ :=
  Real.sqrt ((p1.x - p2.x) ^ 2 + (p1.y - p2.y) ^ 2)

/-- `math.atan2 y x`, the argument of the point `(x, y)`, in `(-π, π]`
with `atan2 0 0 = 0` — exactly `Complex.arg ⟨x, y⟩`. -/
def atan2 (y x : ℝ) : ℝ := Complex.arg ⟨x, y⟩

/-- The `dot = np.dot(ab, cb)` intermediate of `_angle`, where
`ab = a - b` and `cb = c - b` in the image plane. -/
def dotn (a b c : HandLandmark) : ℝ :=
  (a.x - b.x) * (c.x - b.x) + (a.y - b.y) * (c.y - b.y)

/-- The `cross = ab[0]*cb[1] - ab[1]*cb[0]` intermediate of `_angle`. -/
def crossn (a b c : HandLandmark) : ℝ :=
  (a.x - b.x) * (c.y - b.y) - (a.y - b.y) * (c.x - b.x)

/-- `_angle`: the absolute angle at `b` formed by `a-b-c`, in degrees
(`abs(atan2(cross, dot) * 180/pi)`). -/
def angle (a b c : HandLandmark) : ℝ :=
  |atan2 (crossn a b c) (dotn a b c) * (180 / π)|

/-- MediaPipe landmark indices (class constants of `HandGestureDetector`). -/
def WRIST : ℕ := 0
def THUMB_CMC : ℕ := 1
def THUMB_MCP : ℕ := 2
def THUMB_IP : ℕ := 3
def THUMB_TIP : ℕ := 4
def INDEX_MCP : ℕ := 5
def INDEX_PIP : ℕ := 6
def INDEX_DIP : ℕ := 7
def INDEX_TIP : ℕ := 8
def MIDDLE_MCP : ℕ := 9
def MIDDLE_PIP : ℕ := 10
def MIDDLE_DIP : ℕ := 11
def MIDDLE_TIP : ℕ := 12
def RING_MCP : ℕ := 13
def RING_PIP : ℕ := 14
def RING_DIP : ℕ := 15
def RING_TIP : ℕ := 16
def PINKY_MCP : ℕ := 17
def PINKY_PIP : ℕ := 18
def PINKY_DIP : ℕ := 19
def PINKY_TIP : ℕ := 20

/-- `_is_finger_extended`: both joint angles strictly above 150°. -/
def is_finger_extended (l : List HandLandmark) (mcp pip dip tip : ℕ) : Prop :=
  angle (nth l mcp) (nth l pip) (nth l dip) > 150 ∧
  angle (nth l pip) (nth l dip) (nth l tip) > 150

/-- `_is_finger_curled`: at least one joint angle strictly below 130°. -/
def is_finger_curled (l : List HandLandmark) (mcp pip dip tip : ℕ) : Prop :=
  angle (nth l mcp) (nth l pip) (nth l dip) < 130 ∨
  angle (nth l pip) (nth l dip) (nth l tip) < 130

/-- `_is_thumb_extended`. -/
def is_thumb_extended (l : List HandLandmark) : Prop :=
  angle (nth l THUMB_CMC) (nth l THUMB_MCP) (nth l THUMB_IP) > 120 ∧
  distance (nth l THUMB_TIP) (nth l INDEX_MCP) >
    distance (nth l INDEX_MCP) (nth l PINKY_MCP) * 0.6

/-- `_is_thumb_up_gesture`. -/
def is_thumb_up_gesture (l : List HandLandmark) : Prop :=
  (nth l THUMB_TIP).y < (nth l THUMB_MCP).y - 0.05 ∧
  is_finger_curled l INDEX_MCP INDEX_PIP INDEX_DIP INDEX_TIP ∧
  is_finger_curled l MIDDLE_MCP MIDDLE_PIP MIDDLE_DIP MIDDLE_TIP ∧
  is_finger_curled l RING_MCP RING_PIP RING_DIP RING_TIP ∧
  is_finger_curled l PINKY_MCP PINKY_PIP PINKY_DIP PINKY_TIP

/-- `_is_heart_hand_gesture`: tips close, index curved, and middle or ring
not fully extended (the source computes `pinky_not_extended` but does not
use it in the returned conjunction). -/
def is_heart_hand_gesture (l : List HandLandmark) : Prop :=
  distance (nth l THUMB_TIP) (nth l INDEX_TIP) <
    distance (nth l WRIST) (nth l MIDDLE_MCP) * 0.3 ∧
  (90 < angle (nth l INDEX_MCP) (nth l INDEX_PIP) (nth l INDEX_DIP) ∧
   angle (nth l INDEX_MCP) (nth l INDEX_PIP) (nth l INDEX_DIP) < 160) ∧
  (¬ is_finger_extended l MIDDLE_MCP MIDDLE_PIP MIDDLE_DIP MIDDLE_TIP ∨
   ¬ is_finger_extended l RING_MCP RING_PIP RING_DIP RING_TIP)

open Classical in
/-- `sum(finger_states.values())`: the number of extended fingers. -/
def extended_count (l : List HandLandmark) : ℕ :=
  (if is_thumb_extended l then 1 else 0) +
  (if is_finger_extended l INDEX_MCP INDEX_PIP INDEX_DIP INDEX_TIP then 1 else 0) +
  (if is_finger_extended l MIDDLE_MCP MIDDLE_PIP MIDDLE_DIP MIDDLE_TIP then 1 else 0) +
  (if is_finger_extended l RING_MCP RING_PIP RING_DIP RING_TIP then 1 else 0) +
  (if is_finger_extended l PINKY_MCP PINKY_PIP PINKY_DIP PINKY_TIP then 1 else 0)

open Classical in
/-- `_classify_gesture`: the ordered rule cascade. -/
def classify_gesture (l : List HandLandmark) : GestureLabel × ℝ :=
  if l.length ≠ 21 then (.NONE, 0)
  else if is_thumb_up_gesture l then (.THUMB_UP, 0.92)
  else if is_heart_hand_gesture l then (.HEART_HAND, 0.88)
  else if distance (nth l THUMB_TIP) (nth l INDEX_TIP) <
            distance (nth l WRIST) (nth l MIDDLE_MCP) * 0.2 ∧
          is_finger_extended l MIDDLE_MCP MIDDLE_PIP MIDDLE_DIP MIDDLE_TIP ∧
          is_finger_extended l RING_MCP RING_PIP RING_DIP RING_TIP ∧
          is_finger_extended l PINKY_MCP PINKY_PIP PINKY_DIP PINKY_TIP then
    (.OK_SIGN, 0.90)
  else if is_finger_extended l INDEX_MCP INDEX_PIP INDEX_DIP INDEX_TIP ∧
          ¬ is_finger_extended l MIDDLE_MCP MIDDLE_PIP MIDDLE_DIP MIDDLE_TIP ∧
          ¬ is_finger_extended l RING_MCP RING_PIP RING_DIP RING_TIP ∧
          ¬ is_finger_extended l PINKY_MCP PINKY_PIP PINKY_DIP PINKY_TIP then
    (.INDEX_POINTING, 0.88)
  else if is_finger_extended l INDEX_MCP INDEX_PIP INDEX_DIP INDEX_TIP ∧
          is_finger_extended l MIDDLE_MCP MIDDLE_PIP MIDDLE_DIP MIDDLE_TIP ∧
          ¬ is_finger_extended l RING_MCP RING_PIP RING_DIP RING_TIP ∧
          ¬ is_finger_extended l PINKY_MCP PINKY_PIP PINKY_DIP PINKY_TIP then
    (.PEACE_SIGN, 0.85)
  else if extended_count l ≥ 4 then
    (.OPEN_PALM, 0.80 + (extended_count l - 4 : ℕ) * 0.05)
  else if extended_count l ≤ 1 then (.CLOSED_FIST, 0.82)
  else if extended_count l ≥ 3 then (.OPEN_PALM, 0.60)
  else (.CLOSED_FIST, 0.55)

/-- The Heart-Hand feature predicate exactly as claim C7 states it: tip
distance below 0.3 palm sizes, index PIP angle strictly between 90° and
160°, and at least one of middle, ring and *pinky* not fully extended. -/
def heart_hand_claimed (l : List HandLandmark) : Prop :=
  distance (nth l THUMB_TIP) (nth l INDEX_TIP) <
    distance (nth l WRIST) (nth l MIDDLE_MCP) * 0.3 ∧
  (90 < angle (nth l INDEX_MCP) (nth l INDEX_PIP) (nth l INDEX_DIP) ∧
   angle (nth l INDEX_MCP) (nth l INDEX_PIP) (nth l INDEX_DIP) < 160) ∧
  (¬ is_finger_extended l MIDDLE_MCP MIDDLE_PIP MIDDLE_DIP MIDDLE_TIP ∨
   ¬ is_finger_extended l RING_MCP RING_PIP RING_DIP RING_TIP ∨
   ¬ is_finger_extended l PINKY_MCP PINKY_PIP PINKY_DIP PINKY_TIP)

/-- The Heart-Hand feature predicate as the spec words it, amended to
what the source actually uses: the pinky is computed but not consulted,
so only middle and ring appear in the disjunction. -/
def heart_hand_spec_amended (l : List HandLandmark) : Prop :=
  distance (nth l THUMB_TIP) (nth l INDEX_TIP) <
    distance (nth l WRIST) (nth l MIDDLE_MCP) * 0.3 ∧
  (90 < angle (nth l INDEX_MCP) (nth l INDEX_PIP) (nth l INDEX_DIP) ∧
   angle (nth l INDEX_MCP) (nth l INDEX_PIP) (nth l INDEX_DIP) < 160) ∧
  (¬ is_finger_extended l MIDDLE_MCP MIDDLE_PIP MIDDLE_DIP MIDDLE_TIP ∨
   ¬ is_finger_extended l RING_MCP RING_PIP RING_DIP RING_TIP)

/-- A 21-landmark pose with thumb tip on the index tip, an index PIP
angle of 135°, middle and ring fingers straight (fully extended) and the
pinky bent at a right angle: the claimed Heart-Hand predicate holds (the
pinky is not extended) but the code's predicate fails (middle and ring
are both extended). -/
def ce7 : List HandLandmark :=
  [⟨0, 0, 0⟩, ⟨0, 0, 0⟩, ⟨0, 0, 0⟩, ⟨0, 0, 0⟩, ⟨5, 5, 0⟩,
   ⟨1, -1, 0⟩, ⟨0, -1, 0⟩, ⟨-1, 0, 0⟩, ⟨5, 5, 0⟩,
   ⟨1, 0, 0⟩, ⟨2, 0, 0⟩, ⟨3, 0, 0⟩, ⟨4, 0, 0⟩,
   ⟨1, 1, 0⟩, ⟨2, 1, 0⟩, ⟨3, 1, 0⟩, ⟨4, 1, 0⟩,
   ⟨1, 2, 0⟩, ⟨2, 2, 0⟩, ⟨2, 3, 0⟩, ⟨2, 4, 0⟩]

/-- A 21-landmark pose that satisfies both the Heart-Hand predicate
(index PIP angle ≈ 153.4° lies in (150, 160) ⊂ (90, 160), tips touch,
middle not extended) and the Index-Pointing features (index extended,
middle/ring/pinky bent at right angles), with the thumb not pointing up. -/
def v8 : List HandLandmark :=
  [⟨0, 0, 0⟩, ⟨0, 0, 0⟩, ⟨0, 0, 0⟩, ⟨0, 0, 0⟩, ⟨-4, 2, 0⟩,
   ⟨2, 0, 0⟩, ⟨0, 0, 0⟩, ⟨-2, 1, 0⟩, ⟨-4, 2, 0⟩,
   ⟨1, 0, 0⟩, ⟨2, 0, 0⟩, ⟨2, 1, 0⟩, ⟨2, 2, 0⟩,
   ⟨1, 3, 0⟩, ⟨2, 3, 0⟩, ⟨2, 4, 0⟩, ⟨2, 5, 0⟩,
   ⟨1, 6, 0⟩, ⟨2, 6, 0⟩, ⟨2, 7, 0⟩, ⟨2, 8, 0⟩]

theorem mem_firstKeys_aux (x : GestureLabel) (l : List GestureLabel) :
    ∀ acc, x ∈ l.foldl (fun acc a => if a ∈ acc then acc else acc ++ [a]) acc ↔
      x ∈ acc ∨ x ∈ l := by
  induction l with
  | nil => intro acc; simp
  | cons a t ih =>
      intro acc
      by_cases ha : a ∈ acc
      · simp only [List.foldl_cons, if_pos ha, ih acc, List.mem_cons]
        constructor
        · rintro (hx | hx)
          · exact Or.inl hx
          · exact Or.inr (Or.inr hx)
        · rintro (hx | rfl | hx)
          · exact Or.inl hx
          · exact Or.inl ha
          · exact Or.inr hx
      · simp only [List.foldl_cons, if_neg ha, ih (acc ++ [a]), List.mem_append,
          List.mem_singleton, List.mem_cons]
        tauto

theorem mem_firstKeys (x : GestureLabel) (h : List GestureLabel) :
    x ∈ firstKeys h ↔ x ∈ h := by
  simp [firstKeys, mem_firstKeys_aux]

/-- The running best of the `mostCommon` fold always stores the count of
its own label. -/
theorem mostCommon_fold_count (h : List GestureLabel) :
    ∀ (ks : List GestureLabel) (b : GestureLabel × ℕ), b.2 = h.count b.1 →
      (ks.foldl (fun b k' => if h.count k' > b.2 then (k', h.count k') else b) b).2 =
        h.count
          (ks.foldl (fun b k' => if h.count k' > b.2 then (k', h.count k') else b) b).1 := by
  intro ks
  induction ks with
  | nil => intro b hb; exact hb
  | cons k t ih =>
      intro b hb
      simp only [List.foldl_cons]
      by_cases hk : h.count k > b.2
      · rw [if_pos hk]; exact ih (k, h.count k) rfl
      · rw [if_neg hk]; exact ih b hb

/-- The `mostCommon` fold never decreases the stored count. -/
theorem mostCommon_fold_ge_init (h : List GestureLabel) :
    ∀ (ks : List GestureLabel) (b : GestureLabel × ℕ),
      b.2 ≤ (ks.foldl (fun b k' => if h.count k' > b.2 then (k', h.count k') else b) b).2 := by
  intro ks
  induction ks with
  | nil => intro b; exact le_refl _
  | cons k t ih =>
      intro b
      simp only [List.foldl_cons]
      by_cases hk : h.count k > b.2
      · rw [if_pos hk]
        exact le_of_lt (lt_of_lt_of_le hk (ih (k, h.count k)))
      · rw [if_neg hk]
        exact ih b

/-- The `mostCommon` fold result dominates the count of every consumed key. -/
theorem mostCommon_fold_ge_mem (h : List GestureLabel) :
    ∀ (ks : List GestureLabel) (b : GestureLabel × ℕ) (k : GestureLabel), k ∈ ks →
      h.count k ≤ (ks.foldl (fun b k' => if h.count k' > b.2 then (k', h.count k') else b) b).2 := by
  intro ks
  induction ks with
  | nil => intro b k hk; cases hk
  | cons a t ih =>
      intro b k hk
      simp only [List.foldl_cons]
      rcases List.mem_cons.1 hk with rfl | hk'
      · by_cases ha : h.count k > b.2
        · rw [if_pos ha]
          exact mostCommon_fold_ge_init h t (k, h.count k)
        · rw [if_neg ha]
          exact le_trans (Nat.le_of_not_lt ha) (mostCommon_fold_ge_init h t b)
      · exact ih _ k hk'

theorem mostCommon_count (h : List GestureLabel) :
    (mostCommon h).2 = h.count (mostCommon h).1 := by
  unfold mostCommon
  cases hk : firstKeys h with
  | nil =>
      have : GestureLabel.NONE ∉ h := fun hm => by
        have := (mem_firstKeys GestureLabel.NONE h).2 hm
        rw [hk] at this; cases this
      simp [List.count_eq_zero_of_not_mem this]
  | cons k ks => exact mostCommon_fold_count h ks (k, h.count k) rfl

theorem mostCommon_ge (h : List GestureLabel) (a : GestureLabel) (ha : a ∈ h) :
    h.count a ≤ (mostCommon h).2 := by
  have hfk : a ∈ firstKeys h := (mem_firstKeys a h).2 ha
  unfold mostCommon
  cases hk : firstKeys h with
  | nil => rw [hk] at hfk; cases hfk
  | cons k ks =>
      rw [hk] at hfk
      rcases List.mem_cons.1 hfk with rfl | hks
      · exact le_trans (le_refl _) (mostCommon_fold_ge_init h ks (a, h.count a))
      · exact mostCommon_fold_ge_mem h ks (k, h.count k) a hks

theorem count_pair_le (a b : GestureLabel) (hab : a ≠ b) (l : List GestureLabel) :
    l.count a + l.count b ≤ l.length := by
  induction l with
  | nil => simp
  | cons x t ih =>
      simp only [List.count_cons, List.length_cons]
      by_cases hxa : x = a
      · subst hxa
        have hxb : (x == b) = false := beq_false_of_ne hab
        simp only [beq_self_eq_true, if_true, hxb, Bool.false_eq_true,
          if_false]
        omega
      · have hxa' : (x == a) = false := beq_false_of_ne hxa
        simp only [hxa', Bool.false_eq_true, if_false]
        by_cases hxb : x = b
        · simp only [hxb, beq_self_eq_true, if_true]
          omega
        · have hxb' : (x == b) = false := beq_false_of_ne hxb
          simp only [hxb', Bool.false_eq_true, if_false]
          omega

/-- A strict-majority label is what `mostCommon` returns. -/
theorem mostCommon_of_majority (h : List GestureLabel) (ℓ : GestureLabel)
    (hm : 2 * h.count ℓ > h.length) : (mostCommon h).1 = ℓ := by
  have hpos : 0 < h.count ℓ := by
    by_contra hc
    have : h.count ℓ = 0 := Nat.eq_zero_of_not_pos hc
    omega
  have hmem : ℓ ∈ h := List.count_pos_iff.1 hpos
  by_contra hne
  have h1 : h.count ℓ ≤ (mostCommon h).2 := mostCommon_ge h ℓ hmem
  have h2 : (mostCommon h).2 = h.count (mostCommon h).1 := mostCommon_count h
  have h3 : h.count (mostCommon h).1 + h.count ℓ ≤ h.length :=
    count_pair_le _ _ hne h
  omega

/-- C3 (counterexample): the claimed window/majority stabilizer and the
code's stabilizer already disagree on the two-tick trace
`[OpenPalm, ClosedFist]` from the initial state: with fewer than 3
window entries the code returns the raw label (here ClosedFist) instead
of the previously accepted stable label, which the claimed semantics
would keep at OpenPalm (the majority of the one-entry window of tick 1). -/
theorem C3_window_counterexample :
    (visStabilize (visStabilize visInit GestureLabel.OPEN_PALM).1
        GestureLabel.CLOSED_FIST).2 = GestureLabel.CLOSED_FIST ∧
    (claimStabilize (claimStabilize visInit GestureLabel.OPEN_PALM).1
        GestureLabel.CLOSED_FIST).2 = GestureLabel.OPEN_PALM ∧
    GestureLabel.CLOSED_FIST ≠ GestureLabel.OPEN_PALM := by
  refine ⟨by decide, by decide, by decide⟩

/-- C3 (amended): the window stabilizer of the vision layer (whose output
feeds the engine) appends the raw label to the 5-slot window; while the
window holds fewer than 3 labels it returns the raw label and leaves the
stable label untouched; from 3 labels on, it updates the stable output to
a label exactly when that label occupies more than half of the current
window contents, and otherwise keeps emitting the previously accepted
stable label. -/
theorem C3_window_stabilizer_amended (s : VisState) (g : GestureLabel) :
    (visStabilize s g).1.history = pushMax 5 s.history g ∧
    ((pushMax 5 s.history g).length < 3 →
      (visStabilize s g).2 = g ∧
      (visStabilize s g).1.last_stable = s.last_stable) ∧
    (3 ≤ (pushMax 5 s.history g).length →
      (∀ ℓ, 2 * (pushMax 5 s.history g).count ℓ > (pushMax 5 s.history g).length →
        (visStabilize s g).2 = ℓ ∧ (visStabilize s g).1.last_stable = ℓ) ∧
      ((∀ ℓ, 2 * (pushMax 5 s.history g).count ℓ ≤ (pushMax 5 s.history g).length) →
        (visStabilize s g).2 = s.last_stable ∧
        (visStabilize s g).1.last_stable = s.last_stable)) := by
  by_cases hlen : (pushMax 5 s.history g).length < 3
  · refine ⟨by simp [visStabilize, hlen], fun _ => by simp [visStabilize, hlen],
      fun h3 => absurd hlen (by omega)⟩
  · refine ⟨?_, fun hl => absurd hl hlen, fun _ => ⟨?_, ?_⟩⟩
    · by_cases hcond :
        (mostCommon (pushMax 5 s.history g)).2 ≥ (pushMax 5 s.history g).length / 2 + 1
      · simp [visStabilize, hlen, hcond]
      · simp [visStabilize, hlen, hcond]
    · intro ℓ hℓ
      have hm1 : (mostCommon (pushMax 5 s.history g)).1 = ℓ :=
        mostCommon_of_majority _ ℓ hℓ
      have hm2 : (mostCommon (pushMax 5 s.history g)).2 =
          (pushMax 5 s.history g).count ℓ := by
        rw [mostCommon_count, hm1]
      have hcond : (mostCommon (pushMax 5 s.history g)).2 ≥
          (pushMax 5 s.history g).length / 2 + 1 := by omega
      constructor <;> simp [visStabilize, hlen, hcond, hm1]
    · intro hall
      have hmc : 2 * (mostCommon (pushMax 5 s.history g)).2 ≤
          (pushMax 5 s.history g).length := by
        rw [mostCommon_count]; exact hall _
      have hcond : ¬ ((mostCommon (pushMax 5 s.history g)).2 ≥
          (pushMax 5 s.history g).length / 2 + 1) := by omega
      constructor <;> simp [visStabilize, hlen, hcond]

theorem C3_window_stabilizer_amended_witness :
    ((pushMax 5 visInit.history GestureLabel.OPEN_PALM).length < 3 ∧
     (visStabilize visInit GestureLabel.OPEN_PALM).2 = GestureLabel.OPEN_PALM) ∧
    (2 * (pushMax 5 c3MajState.history GestureLabel.OPEN_PALM).count GestureLabel.OPEN_PALM >
        (pushMax 5 c3MajState.history GestureLabel.OPEN_PALM).length ∧
     (visStabilize c3MajState GestureLabel.OPEN_PALM).2 = GestureLabel.OPEN_PALM) ∧
    ((visStabilize c3TieState GestureLabel.OK_SIGN).2 = GestureLabel.THUMB_UP) := by
  have t1 := C3_window_stabilizer_amended visInit GestureLabel.OPEN_PALM
  have t2 := C3_window_stabilizer_amended c3MajState GestureLabel.OPEN_PALM
  have t3 := C3_window_stabilizer_amended c3TieState GestureLabel.OK_SIGN
  refine ⟨⟨by decide, (t1.2.1 (by decide)).1⟩,
          ⟨by decide, ((t2.2.2 (by decide)).1 GestureLabel.OPEN_PALM (by decide)).1⟩,
          ((t3.2.2 (by decide)).2 (by decide)).1⟩

theorem atan2_zero_neg {x : ℝ} (hx : x < 0) : atan2 0 x = π := by
  have hmk : (⟨x, 0⟩ : ℂ) = (x : ℂ) := Complex.ext rfl rfl
  rw [atan2, hmk]
  exact Complex.arg_ofReal_of_neg hx

theorem atan2_pos_zero {y : ℝ} (hy : 0 < y) : atan2 y 0 = π / 2 :=
  Complex.arg_eq_pi_div_two_iff.2 ⟨rfl, hy⟩

theorem atan2_neg_zero {y : ℝ} (hy : y < 0) : atan2 y 0 = -(π / 2) :=
  Complex.arg_eq_neg_pi_div_two_iff.2 ⟨rfl, hy⟩

/-- In the open upper-left quadrant (including the negative real axis),
`atan2` is `π` minus the arctangent of the slope against the negative
x-direction. -/
theorem atan2_neg_nonneg {y x : ℝ} (hx : x < 0) (hy : 0 ≤ y) :
    atan2 y x = π - Real.arctan (y / (-x)) := by
  have harg := Complex.arg_of_re_neg_of_im_nonneg (x := ⟨x, y⟩) hx hy
  have habs : Complex.abs ⟨x, y⟩ = Real.sqrt (x ^ 2 + y ^ 2) := by
    rw [Complex.abs_apply, Complex.normSq_mk]; ring_nf
  have hx2 : (0:ℝ) < x ^ 2 := pow_two_pos_of_ne_zero (ne_of_lt hx)
  have hs : (0:ℝ) < Real.sqrt (x ^ 2 + y ^ 2) := by
    apply Real.sqrt_pos.2
    nlinarith [sq_nonneg y]
  have key : (y / -x) / Real.sqrt (1 + (y / -x) ^ 2) = y / Real.sqrt (x ^ 2 + y ^ 2) := by
    have hxne : -x ≠ 0 := by linarith
    have hx0 : x ≠ 0 := ne_of_lt hx
    have h1 : 1 + (y / -x) ^ 2 = (x ^ 2 + y ^ 2) / x ^ 2 := by
      field_simp
    rw [h1, Real.sqrt_div (by positivity) _, Real.sqrt_sq_eq_abs, abs_of_neg hx]
    rw [div_div_div_eq, mul_comm y (-x), mul_div_mul_left _ _ hxne]
  rw [atan2, harg, habs, Real.arctan_eq_arcsin, key]
  have him : (-(⟨x, y⟩ : ℂ)).im = -y := rfl
  rw [him, neg_div, Real.arcsin_neg]
  ring

theorem angle_straight {a b c : HandLandmark} (hd : dotn a b c < 0)
    (hcr : crossn a b c = 0) : angle a b c = 180 := by
  rw [angle, hcr, atan2_zero_neg hd,
    abs_of_nonneg (by positivity : (0:ℝ) ≤ π * (180 / π))]
  field_simp

theorem angle_perp_pos {a b c : HandLandmark} (hd : dotn a b c = 0)
    (hcr : 0 < crossn a b c) : angle a b c = 90 := by
  rw [angle, hd, atan2_pos_zero hcr,
    abs_of_nonneg (by positivity : (0:ℝ) ≤ π / 2 * (180 / π))]
  field_simp
  ring

theorem angle_perp_neg {a b c : HandLandmark} (hd : dotn a b c = 0)
    (hcr : crossn a b c < 0) : angle a b c = 90 := by
  rw [angle, hd, atan2_neg_zero hcr, neg_mul, abs_neg,
    abs_of_nonneg (by positivity : (0:ℝ) ≤ π / 2 * (180 / π))]
  field_simp
  ring

theorem angle_obtuse {a b c : HandLandmark} (hd : dotn a b c < 0)
    (hcr : 0 ≤ crossn a b c) :
    angle a b c = (π - Real.arctan (crossn a b c / (-dotn a b c))) * (180 / π) := by
  have harc : Real.arctan (crossn a b c / (-dotn a b c)) < π / 2 :=
    Real.arctan_lt_pi_div_two _
  have hπ := Real.pi_pos
  rw [angle, atan2_neg_nonneg hd hcr]
  rw [abs_of_nonneg]
  apply mul_nonneg
  · linarith
  · positivity

theorem arctan_half_lt_pi_div_six : Real.arctan (1/2) < π / 6 := by
  have hπ := Real.pi_pos
  have h6 : Real.arctan (Real.tan (π / 6)) = π / 6 :=
    Real.arctan_tan (by linarith) (by linarith)
  have h3 : (0:ℝ) < Real.sqrt 3 := Real.sqrt_pos.2 (by norm_num)
  have h32 : Real.sqrt 3 < 2 := by
    nlinarith [Real.sq_sqrt (by norm_num : (0:ℝ) ≤ 3), Real.sqrt_nonneg 3]
  have hlt : (1:ℝ)/2 < Real.tan (π / 6) := by
    rw [Real.tan_pi_div_six, div_lt_div_iff (by norm_num) h3]
    linarith
  calc Real.arctan (1/2) < Real.arctan (Real.tan (π / 6)) :=
        Real.arctan_strictMono hlt
    _ = π / 6 := h6

theorem pi_div_nine_lt_arctan_half : π / 9 < Real.arctan (1/2) := by
  have hπ3 := Real.pi_gt_three
  have hadd := Real.arctan_add (x := 1/2) (y := 1/3) (by norm_num)
  have harg : ((1:ℝ)/2 + 1/3) / (1 - (1/2) * (1/3)) = 1 := by norm_num
  rw [harg, Real.arctan_one] at hadd
  have h13 : Real.arctan (1/3) < 1/3 := by
    have h1 : (1:ℝ)/3 < Real.tan (1/3) :=
      Real.lt_tan (by norm_num) (by linarith)
    have h2 : Real.arctan (Real.tan (1/3)) = 1/3 :=
      Real.arctan_tan (by linarith) (by linarith)
    calc Real.arctan (1/3) < Real.arctan (Real.tan (1/3)) :=
          Real.arctan_strictMono h1
      _ = 1/3 := h2
  linarith

theorem deg_half_gt_150 : 150 < (π - Real.arctan (1/2)) * (180 / π) := by
  have hA := arctan_half_lt_pi_div_six
  have hπ := Real.pi_pos
  have h1 : 5 * π / 6 < π - Real.arctan (1/2) := by linarith
  have h2 : (0:ℝ) < 180 / π := by positivity
  calc (150:ℝ) = 5 * π / 6 * (180 / π) := by field_simp; ring
    _ < (π - Real.arctan (1/2)) * (180 / π) := mul_lt_mul_of_pos_right h1 h2

theorem deg_half_lt_160 : (π - Real.arctan (1/2)) * (180 / π) < 160 := by
  have hA := pi_div_nine_lt_arctan_half
  have hπ := Real.pi_pos
  have h1 : π - Real.arctan (1/2) < 8 * π / 9 := by linarith
  have h2 : (0:ℝ) < 180 / π := by positivity
  calc (π - Real.arctan (1/2)) * (180 / π) < 8 * π / 9 * (180 / π) :=
        mul_lt_mul_of_pos_right h1 h2
    _ = 160 := by field_simp; ring

theorem deg_quarter_eq_135 : (π - Real.arctan 1) * (180 / π) = 135 := by
  rw [Real.arctan_one]
  field_simp
  ring

theorem ce7_tips_close :
    distance (nth ce7 THUMB_TIP) (nth ce7 INDEX_TIP) <
      distance (nth ce7 WRIST) (nth ce7 MIDDLE_MCP) * 0.3 := by
  show distance ⟨5, 5, 0⟩ ⟨5, 5, 0⟩ < distance ⟨0, 0, 0⟩ ⟨1, 0, 0⟩ * 0.3
  have h1 : distance (⟨5, 5, 0⟩ : HandLandmark) ⟨5, 5, 0⟩ = 0 := by
    simp [distance]
  have h2 : distance (⟨0, 0, 0⟩ : HandLandmark) ⟨1, 0, 0⟩ = 1 := by
    simp [distance]
  rw [h1, h2]
  norm_num

theorem ce7_index_pip_angle :
    angle (nth ce7 INDEX_MCP) (nth ce7 INDEX_PIP) (nth ce7 INDEX_DIP) = 135 := by
  show angle ⟨1, -1, 0⟩ ⟨0, -1, 0⟩ ⟨-1, 0, 0⟩ = 135
  have hd : dotn (⟨1, -1, 0⟩ : HandLandmark) ⟨0, -1, 0⟩ ⟨-1, 0, 0⟩ = -1 := by
    norm_num [dotn]
  have hc : crossn (⟨1, -1, 0⟩ : HandLandmark) ⟨0, -1, 0⟩ ⟨-1, 0, 0⟩ = 1 := by
    norm_num [crossn]
  rw [angle_obtuse (by rw [hd]; norm_num) (by rw [hc]; norm_num), hd, hc]
  norm_num
  field_simp
  ring

theorem ce7_middle_extended :
    is_finger_extended ce7 MIDDLE_MCP MIDDLE_PIP MIDDLE_DIP MIDDLE_TIP := by
  constructor
  · have h : angle (nth ce7 MIDDLE_MCP) (nth ce7 MIDDLE_PIP) (nth ce7 MIDDLE_DIP)
        = 180 := by
      show angle ⟨1, 0, 0⟩ ⟨2, 0, 0⟩ ⟨3, 0, 0⟩ = 180
      exact angle_straight (by norm_num [dotn]) (by norm_num [crossn])
    rw [h]; norm_num
  · have h : angle (nth ce7 MIDDLE_PIP) (nth ce7 MIDDLE_DIP) (nth ce7 MIDDLE_TIP)
        = 180 := by
      show angle ⟨2, 0, 0⟩ ⟨3, 0, 0⟩ ⟨4, 0, 0⟩ = 180
      exact angle_straight (by norm_num [dotn]) (by norm_num [crossn])
    rw [h]; norm_num

theorem ce7_ring_extended :
    is_finger_extended ce7 RING_MCP RING_PIP RING_DIP RING_TIP := by
  constructor
  · have h : angle (nth ce7 RING_MCP) (nth ce7 RING_PIP) (nth ce7 RING_DIP)
        = 180 := by
      show angle ⟨1, 1, 0⟩ ⟨2, 1, 0⟩ ⟨3, 1, 0⟩ = 180
      exact angle_straight (by norm_num [dotn]) (by norm_num [crossn])
    rw [h]; norm_num
  · have h : angle (nth ce7 RING_PIP) (nth ce7 RING_DIP) (nth ce7 RING_TIP)
        = 180 := by
      show angle ⟨2, 1, 0⟩ ⟨3, 1, 0⟩ ⟨4, 1, 0⟩ = 180
      exact angle_straight (by norm_num [dotn]) (by norm_num [crossn])
    rw [h]; norm_num

theorem ce7_pinky_not_extended :
    ¬ is_finger_extended ce7 PINKY_MCP PINKY_PIP PINKY_DIP PINKY_TIP := by
  intro hext
  have h : angle (nth ce7 PINKY_MCP) (nth ce7 PINKY_PIP) (nth ce7 PINKY_DIP)
      = 90 := by
    show angle ⟨1, 2, 0⟩ ⟨2, 2, 0⟩ ⟨2, 3, 0⟩ = 90
    exact angle_perp_neg (by norm_num [dotn]) (by norm_num [crossn])
  have := hext.1
  rw [h] at this
  norm_num at this

theorem v8_tips_close :
    distance (nth v8 THUMB_TIP) (nth v8 INDEX_TIP) <
      distance (nth v8 WRIST) (nth v8 MIDDLE_MCP) * 0.3 := by
  show distance ⟨-4, 2, 0⟩ ⟨-4, 2, 0⟩ < distance ⟨0, 0, 0⟩ ⟨1, 0, 0⟩ * 0.3
  have h1 : distance (⟨-4, 2, 0⟩ : HandLandmark) ⟨-4, 2, 0⟩ = 0 := by
    simp [distance]
  have h2 : distance (⟨0, 0, 0⟩ : HandLandmark) ⟨1, 0, 0⟩ = 1 := by
    simp [distance]
  rw [h1, h2]
  norm_num

theorem v8_index_pip_angle :
    angle (nth v8 INDEX_MCP) (nth v8 INDEX_PIP) (nth v8 INDEX_DIP) =
      (π - Real.arctan (1/2)) * (180 / π) := by
  show angle ⟨2, 0, 0⟩ ⟨0, 0, 0⟩ ⟨-2, 1, 0⟩ = _
  have hd : dotn (⟨2, 0, 0⟩ : HandLandmark) ⟨0, 0, 0⟩ ⟨-2, 1, 0⟩ = -4 := by
    norm_num [dotn]
  have hc : crossn (⟨2, 0, 0⟩ : HandLandmark) ⟨0, 0, 0⟩ ⟨-2, 1, 0⟩ = 2 := by
    norm_num [crossn]
  rw [angle_obtuse (by rw [hd]; norm_num) (by rw [hc]; norm_num), hd, hc]
  norm_num

theorem v8_index_dip_angle :
    angle (nth v8 INDEX_PIP) (nth v8 INDEX_DIP) (nth v8 INDEX_TIP) = 180 := by
  show angle ⟨0, 0, 0⟩ ⟨-2, 1, 0⟩ ⟨-4, 2, 0⟩ = 180
  exact angle_straight (by norm_num [dotn]) (by norm_num [crossn])

theorem v8_index_extended :
    is_finger_extended v8 INDEX_MCP INDEX_PIP INDEX_DIP INDEX_TIP := by
  constructor
  · rw [v8_index_pip_angle]
    exact deg_half_gt_150
  · rw [v8_index_dip_angle]
    norm_num

theorem v8_middle_not_extended :
    ¬ is_finger_extended v8 MIDDLE_MCP MIDDLE_PIP MIDDLE_DIP MIDDLE_TIP := by
  intro hext
  have h : angle (nth v8 MIDDLE_MCP) (nth v8 MIDDLE_PIP) (nth v8 MIDDLE_DIP)
      = 90 := by
    show angle ⟨1, 0, 0⟩ ⟨2, 0, 0⟩ ⟨2, 1, 0⟩ = 90
    exact angle_perp_neg (by norm_num [dotn]) (by norm_num [crossn])
  have := hext.1
  rw [h] at this
  norm_num at this

theorem v8_ring_not_extended :
    ¬ is_finger_extended v8 RING_MCP RING_PIP RING_DIP RING_TIP := by
  intro hext
  have h : angle (nth v8 RING_MCP) (nth v8 RING_PIP) (nth v8 RING_DIP)
      = 90 := by
    show angle ⟨1, 3, 0⟩ ⟨2, 3, 0⟩ ⟨2, 4, 0⟩ = 90
    exact angle_perp_neg (by norm_num [dotn]) (by norm_num [crossn])
  have := hext.1
  rw [h] at this
  norm_num at this

theorem v8_pinky_not_extended :
    ¬ is_finger_extended v8 PINKY_MCP PINKY_PIP PINKY_DIP PINKY_TIP := by
  intro hext
  have h : angle (nth v8 PINKY_MCP) (nth v8 PINKY_PIP) (nth v8 PINKY_DIP)
      = 90 := by
    show angle ⟨1, 6, 0⟩ ⟨2, 6, 0⟩ ⟨2, 7, 0⟩ = 90
    exact angle_perp_neg (by norm_num [dotn]) (by norm_num [crossn])
  have := hext.1
  rw [h] at this
  norm_num at this

theorem v8_heart_hand : is_heart_hand_gesture v8 := by
  refine ⟨v8_tips_close, ⟨?_, ?_⟩, Or.inl v8_middle_not_extended⟩
  · rw [v8_index_pip_angle]
    have := deg_half_gt_150
    linarith
  · rw [v8_index_pip_angle]
    exact deg_half_lt_160

theorem v8_not_thumb_up : ¬ is_thumb_up_gesture v8 := by
  intro ht
  have hp := ht.1
  have h4 : nth v8 THUMB_TIP = ⟨-4, 2, 0⟩ := rfl
  have h2 : nth v8 THUMB_MCP = ⟨0, 0, 0⟩ := rfl
  rw [h4, h2] at hp
  norm_num at hp

theorem v8_length : v8.length = 21 := rfl

/-- C7 (counterexample): the pose `ce7` satisfies the claimed Heart-Hand
predicate (its pinky is not fully extended) but not the code's predicate
(middle and ring are both fully extended and the pinky is ignored), so
the claimed characterisation of the Heart-Hand rule is false. -/
theorem C7_heart_hand_counterexample :
    heart_hand_claimed ce7 ∧ ¬ is_heart_hand_gesture ce7 := by
  constructor
  · refine ⟨ce7_tips_close, ⟨?_, ?_⟩, Or.inr (Or.inr ce7_pinky_not_extended)⟩
    · rw [ce7_index_pip_angle]; norm_num
    · rw [ce7_index_pip_angle]; norm_num
  · rintro ⟨-, -, hor⟩
    rcases hor with hm | hr
    · exact hm ce7_middle_extended
    · exact hr ce7_ring_extended

/-- C7 (amended): the Heart-Hand feature predicate holds iff the thumb
tip is within 0.3 palm sizes of the index tip, the index PIP angle lies
strictly between 90° and 160°, and at least one of middle and *ring* is
not fully extended (the source computes `pinky_not_extended` but never
uses it); whenever the cascade reaches the rule — pose of length 21,
Thumb-Up not matched — and the predicate holds, the classifier returns
Heart-Hand at confidence 0.88. -/
theorem C7_heart_hand_amended (l : List HandLandmark) :
    (is_heart_hand_gesture l ↔ heart_hand_spec_amended l) ∧
    (l.length = 21 → ¬ is_thumb_up_gesture l → is_heart_hand_gesture l →
      classify_gesture l = (GestureLabel.HEART_HAND, 0.88)) := by
  refine ⟨Iff.rfl, fun h21 hnt hh => ?_⟩
  unfold classify_gesture
  rw [if_neg (fun hne => hne h21), if_neg hnt, if_pos hh]

theorem C7_heart_hand_amended_witness :
    (is_heart_hand_gesture v8 ↔ heart_hand_spec_amended v8) ∧
    (v8.length = 21 ∧ ¬ is_thumb_up_gesture v8 ∧ is_heart_hand_gesture v8) ∧
    classify_gesture v8 = (GestureLabel.HEART_HAND, 0.88) :=
  ⟨(C7_heart_hand_amended v8).1,
   ⟨v8_length, v8_not_thumb_up, v8_heart_hand⟩,
   (C7_heart_hand_amended v8).2 v8_length v8_not_thumb_up v8_heart_hand⟩

/-- C8: a 21-landmark pose satisfying both the Heart-Hand feature
predicate and the Index-Pointing features classifies as Heart-Hand: an
extended index cannot be curled, so Thumb-Up (the only earlier rule)
cannot match, and the cascade short-circuits at the Heart-Hand rule. -/
theorem C8_rule_precedence (l : List HandLandmark) (h21 : l.length = 21)
    (hh : is_heart_hand_gesture l)
    (hidx : is_finger_extended l INDEX_MCP INDEX_PIP INDEX_DIP INDEX_TIP ∧
      ¬ is_finger_extended l MIDDLE_MCP MIDDLE_PIP MIDDLE_DIP MIDDLE_TIP ∧
      ¬ is_finger_extended l RING_MCP RING_PIP RING_DIP RING_TIP ∧
      ¬ is_finger_extended l PINKY_MCP PINKY_PIP PINKY_DIP PINKY_TIP) :
    classify_gesture l = (GestureLabel.HEART_HAND, 0.88) := by
  have hnt : ¬ is_thumb_up_gesture l := by
    intro ht
    obtain ⟨hp, hd⟩ := hidx.1
    rcases ht.2.1 with hc | hc
    · exact absurd hc (by linarith)
    · exact absurd hc (by linarith)
  unfold classify_gesture
  rw [if_neg (fun hne => hne h21), if_neg hnt, if_pos hh]

theorem C8_rule_precedence_witness :
    (v8.length = 21 ∧ is_heart_hand_gesture v8 ∧
     (is_finger_extended v8 INDEX_MCP INDEX_PIP INDEX_DIP INDEX_TIP ∧
      ¬ is_finger_extended v8 MIDDLE_MCP MIDDLE_PIP MIDDLE_DIP MIDDLE_TIP ∧
      ¬ is_finger_extended v8 RING_MCP RING_PIP RING_DIP RING_TIP ∧
      ¬ is_finger_extended v8 PINKY_MCP PINKY_PIP PINKY_DIP PINKY_TIP)) ∧
    classify_gesture v8 = (GestureLabel.HEART_HAND, 0.88) :=
  ⟨⟨v8_length, v8_heart_hand,
    v8_index_extended, v8_middle_not_extended, v8_ring_not_extended,
    v8_pinky_not_extended⟩,
   C8_rule_precedence v8 v8_length v8_heart_hand
     ⟨v8_index_extended, v8_middle_not_extended, v8_ring_not_extended,
      v8_pinky_not_extended⟩⟩

/-- C9: the classifier is a total function; a landmark sequence whose
length is not 21 short-circuits to the no-gesture result `(NONE, 0.0)`
before any landmark is read (for length-21 input every index access is
in range, so the embedding's total indexing is faithful). -/
theorem C9_malformed_returns_none (l : List HandLandmark)
    (h : l.length ≠ 21) : classify_gesture l = (GestureLabel.NONE, 0) := by
  unfold classify_gesture
  rw [if_pos h]

theorem C9_malformed_returns_none_witness :
    ([] : List HandLandmark).length ≠ 21 ∧
    classify_gesture [] = (GestureLabel.NONE, 0) :=
  ⟨by decide, C9_malformed_returns_none [] (by decide)⟩

end

end HandGestureDetector

namespace EmpatheticStateMachine

/-- `_stabilize_emotion` only touches the emotion counter and the stable
emotion: every other field of the state survives unchanged. -/
theorem stabilize_emotion_frame (s : State) (e : Option EmotionLabel) :
    (stabilize_emotion s e).1.current_mood = s.current_mood ∧
    (stabilize_emotion s e).1.current_emotion = s.current_emotion ∧
    (stabilize_emotion s e).1.current_gesture = s.current_gesture ∧
    (stabilize_emotion s e).1.mood_history = s.mood_history ∧
    (stabilize_emotion s e).1.input_buffer = s.input_buffer ∧
    (stabilize_emotion s e).1.last_state_change = s.last_state_change ∧
    (stabilize_emotion s e).1.gesture_start_time = s.gesture_start_time ∧
    (stabilize_emotion s e).1.gesture_stable_count = s.gesture_stable_count ∧
    (stabilize_emotion s e).1.last_stable_gesture = s.last_stable_gesture := by
  simp only [stabilize_emotion]
  split <;> split <;> simp

/-- `_stabilize_gesture` only touches the gesture counter, the gesture
start time and the stable gesture: every other field survives unchanged. -/
theorem stabilize_gesture_frame (s : State) (g : Option GestureLabel) (now : ℚ) :
    (stabilize_gesture s g now).1.current_mood = s.current_mood ∧
    (stabilize_gesture s g now).1.current_emotion = s.current_emotion ∧
    (stabilize_gesture s g now).1.current_gesture = s.current_gesture ∧
    (stabilize_gesture s g now).1.mood_history = s.mood_history ∧
    (stabilize_gesture s g now).1.input_buffer = s.input_buffer ∧
    (stabilize_gesture s g now).1.last_state_change = s.last_state_change ∧
    (stabilize_gesture s g now).1.emotion_stable_count = s.emotion_stable_count ∧
    (stabilize_gesture s g now).1.last_stable_emotion = s.last_stable_emotion := by
  simp only [stabilize_gesture]
  split <;> split <;> simp

/-- When the stored stable emotion is absent, `_stabilize_emotion` returns
an absent emotion and the stored stable emotion stays absent, whatever the
incoming raw observation is. -/
theorem stabilize_emotion_absent (s : State) (e : Option EmotionLabel)
    (h : s.last_stable_emotion = none) :
    (stabilize_emotion s e).2 = none ∧
    (stabilize_emotion s e).1.last_stable_emotion = none := by
  unfold stabilize_emotion
  cases e with
  | none => simp [h]
  | some x => simp [h]

/-- When the stored stable gesture is absent, `_stabilize_gesture` returns
an absent gesture and the stored stable gesture stays absent. -/
theorem stabilize_gesture_absent (s : State) (g : Option GestureLabel) (now : ℚ)
    (h : s.last_stable_gesture = none) :
    (stabilize_gesture s g now).2 = none ∧
    (stabilize_gesture s g now).1.last_stable_gesture = none := by
  unfold stabilize_gesture
  cases g with
  | none => simp [h]
  | some x => simp [h]

theorem se_mood (s : State) (e : Option EmotionLabel) :
    (stabilize_emotion s e).1.current_mood = s.current_mood :=
  (stabilize_emotion_frame s e).1

theorem se_hist (s : State) (e : Option EmotionLabel) :
    (stabilize_emotion s e).1.mood_history = s.mood_history :=
  (stabilize_emotion_frame s e).2.2.2.1

theorem se_lsg (s : State) (e : Option EmotionLabel) :
    (stabilize_emotion s e).1.last_stable_gesture = s.last_stable_gesture :=
  (stabilize_emotion_frame s e).2.2.2.2.2.2.2.2

theorem se_lsc (s : State) (e : Option EmotionLabel) :
    (stabilize_emotion s e).1.last_state_change = s.last_state_change :=
  (stabilize_emotion_frame s e).2.2.2.2.2.1

theorem sg_mood (s : State) (g : Option GestureLabel) (now : ℚ) :
    (stabilize_gesture s g now).1.current_mood = s.current_mood :=
  (stabilize_gesture_frame s g now).1

theorem sg_hist (s : State) (g : Option GestureLabel) (now : ℚ) :
    (stabilize_gesture s g now).1.mood_history = s.mood_history :=
  (stabilize_gesture_frame s g now).2.2.2.1

theorem sg_lse (s : State) (g : Option GestureLabel) (now : ℚ) :
    (stabilize_gesture s g now).1.last_stable_emotion = s.last_stable_emotion :=
  (stabilize_gesture_frame s g now).2.2.2.2.2.2.2

theorem sg_lsc (s : State) (g : Option GestureLabel) (now : ℚ) :
    (stabilize_gesture s g now).1.last_state_change = s.last_state_change :=
  (stabilize_gesture_frame s g now).2.2.2.2.2.1

theorem se_out (s : State) (e : Option EmotionLabel)
    (h : s.last_stable_emotion = none) : (stabilize_emotion s e).2 = none :=
  (stabilize_emotion_absent s e h).1

theorem se_lse_none (s : State) (e : Option EmotionLabel)
    (h : s.last_stable_emotion = none) :
    (stabilize_emotion s e).1.last_stable_emotion = none :=
  (stabilize_emotion_absent s e h).2

theorem sg_out (s : State) (g : Option GestureLabel) (now : ℚ)
    (h : s.last_stable_gesture = none) : (stabilize_gesture s g now).2 = none :=
  (stabilize_gesture_absent s g now h).1

theorem sg_lsg_none (s : State) (g : Option GestureLabel) (now : ℚ)
    (h : s.last_stable_gesture = none) :
    (stabilize_gesture s g now).1.last_stable_gesture = none :=
  (stabilize_gesture_absent s g now h).2

theorem calculate_mood_none_none : calculate_mood none none = MoodState.NEUTRAL := rfl

/-- With an absent stable emotion no sound effect is ever attached. -/
theorem get_reaction_sfx_of_no_emotion (cfg : StateMachineConfig) (s : State)
    (g : Option GestureLabel) (nm : MoodState) (mc : Bool) (now : ℚ) :
    (get_reaction cfg s none g nm mc now).sfx_to_play = none := by
  unfold get_reaction
  cases mc <;> rcases MOOD_AMBIENCE nm <;> simp

/-- One `process_input` tick from an inert state stays inert, returns
`None`, and fires neither callback. -/
theorem process_input_inert (cfg : StateMachineConfig) (s : State)
    (inp : SensoryInput) (now : ℚ) (h : Inert s) :
    Inert (process_input cfg s inp now).state ∧
    (process_input cfg s inp now).emitted = none ∧
    (process_input cfg s inp now).moodChangeEvent = none := by
  obtain ⟨hm, hh, hse, hsg, _, _⟩ := h
  refine ⟨⟨?_, ?_, ?_, ?_, ?_, ?_⟩, ?_, ?_⟩ <;>
    simp [process_input, Inert, se_mood, se_hist, se_lsg, sg_mood, sg_hist,
      sg_lse, se_out, se_lse_none, sg_out, sg_lsg_none, calculate_mood_none_none,
      get_reaction_sfx_of_no_emotion, strTruthy, hm, hh, hse, hsg]

/-- Every run from an inert state stays inert and emits nothing. -/
theorem run_inert (cfg : StateMachineConfig) (ticks : List (SensoryInput × ℚ))
    (s : State) (h : Inert s) :
    Inert (runState cfg s ticks) ∧
    (runOutputs cfg s ticks).all
      (fun o => decide (o.emitted = none) && decide (o.moodChangeEvent = none)) = true := by
  induction ticks generalizing s with
  | nil => exact ⟨h, rfl⟩
  | cons t rest ih =>
      obtain ⟨h1, h2, h3⟩ := process_input_inert cfg s t.1 t.2 h
      obtain ⟨ih1, ih2⟩ := ih (process_input cfg s t.1 t.2).state h1
      refine ⟨by simpa [runState] using ih1, ?_⟩
      simp [runOutputs, h2, h3, ih2]

/-- C2: from the initial (or reset) state, whatever sequence of sensory
inputs and times is fed to `process_input`, the stable emotion and stable
gesture stay absent, the mood stays Neutral, no history entry is appended,
neither callback ever fires and every call returns `None` — both
stabilizers compare the raw value against the last *stable* value, so the
stable values can never change. -/
theorem C2_engine_inert (cfg : StateMachineConfig)
    (ticks : List (SensoryInput × ℚ)) :
    (runState cfg initState ticks).current_mood = MoodState.NEUTRAL ∧
    (runState cfg initState ticks).mood_history = [] ∧
    (runState cfg initState ticks).last_stable_emotion = none ∧
    (runState cfg initState ticks).last_stable_gesture = none ∧
    (runState cfg initState ticks).current_emotion = none ∧
    (runState cfg initState ticks).current_gesture = none ∧
    (runOutputs cfg initState ticks).all
      (fun o => decide (o.emitted = none) && decide (o.moodChangeEvent = none)) = true := by
  obtain ⟨⟨h1, h2, h3, h4, h5, h6⟩, h7⟩ :=
    run_inert cfg ticks initState ⟨rfl, rfl, rfl, rfl, rfl, rfl⟩
  exact ⟨h1, h2, h3, h4, h5, h6, h7⟩

/-- Every sound-effect id in `EMOTION_GESTURE_REACTIONS` is a non-empty
string (so Python's truthiness test on it agrees with presence). -/
theorem reactions_sfx_nonempty (e : EmotionLabel) (g : GestureLabel)
    (rc : ReactionCfg) (h : EMOTION_GESTURE_REACTIONS e g = some rc) :
    rc.sfx ≠ "" := by
  cases e <;> cases g <;> (try exact Option.noConfusion h) <;> (cases h; decide)

theorem isSome_ite_some {α : Type} (b : Bool) (x : α) :
    (if b then some x else none).isSome = b := by
  cases b <;> simp

/-- The sfx attached by `_get_reaction` is never the empty string, hence
its Python truthiness coincides with its presence. -/
theorem get_reaction_sfx_truthy (cfg : StateMachineConfig) (s : State)
    (e : Option EmotionLabel) (g : Option GestureLabel) (nm : MoodState)
    (mc : Bool) (now : ℚ) :
    strTruthy (get_reaction cfg s e g nm mc now).sfx_to_play =
      (get_reaction cfg s e g nm mc now).sfx_to_play.isSome := by
  unfold get_reaction
  cases e with
  | none =>
      cases mc <;> rcases hMA : MOOD_AMBIENCE nm <;> simp [hMA, strTruthy]
  | some e' =>
    cases g with
    | none =>
        cases mc <;> rcases hMA : MOOD_AMBIENCE nm <;>
          rcases hEA : EMOTION_AMBIENCE e' <;> simp [hMA, hEA, strTruthy]
    | some g' =>
      cases hheld : is_gesture_held cfg s (now * 1000) with
      | false =>
          cases mc <;> rcases hMA : MOOD_AMBIENCE nm <;>
            rcases hEA : EMOTION_AMBIENCE e' <;> simp [hheld, hMA, hEA, strTruthy]
      | true =>
        cases ht : EMOTION_GESTURE_REACTIONS e' g' with
        | none =>
            cases mc <;> rcases hMA : MOOD_AMBIENCE nm <;>
              rcases hEA : EMOTION_AMBIENCE e' <;>
                simp [hheld, ht, hMA, hEA, strTruthy]
        | some rc =>
          have hne := reactions_sfx_nonempty e' g' rc ht
          cases mc <;> rcases hMA : MOOD_AMBIENCE nm <;>
            rcases hEA : EMOTION_AMBIENCE e' <;>
              simp [hheld, ht, hMA, hEA, strTruthy, hne]

/-- C6: a tick surfaces a reaction to subscribers (the non-`None` return,
which is also exactly when `on_reaction` is invoked) if and only if the
mood transition was accepted this tick or a sound effect was selected
this tick, and the surfaced event is the tick's generated reaction. -/
theorem C6_emission_policy (cfg : StateMachineConfig) (s : State)
    (inp : SensoryInput) (now : ℚ) :
    (process_input cfg s inp now).moodChangeEvent.isSome
        = (process_input cfg s inp now).moodChanged ∧
    (process_input cfg s inp now).emitted =
      (if (process_input cfg s inp now).moodChanged ||
          (process_input cfg s inp now).reaction.sfx_to_play.isSome
       then some (process_input cfg s inp now).reaction else none) := by
  constructor
  · simp only [process_input, isSome_ite_some]
  · simp only [process_input, get_reaction_sfx_truthy]

/-- C5: the candidate mood computed this tick is applied — current mood
replaced, history entry appended, mood-change notification fired — if and
only if it differs from the current mood and the elapsed time since the
last accepted transition is at least the configured cooldown; on
rejection, mood, history and the last-transition time are left untouched.
On acceptance the last-transition time becomes the current time, which
together with the guard separates any two accepted transitions by at
least the cooldown. -/
theorem C5_cooldown_guard (cfg : StateMachineConfig) (s : State)
    (inp : SensoryInput) (now : ℚ) :
    ((process_input cfg s inp now).moodChangeEvent.isSome ↔
      ((process_input cfg s inp now).newMood ≠ s.current_mood ∧
       now * 1000 - s.last_state_change ≥ cfg.state_transition_cooldown_ms)) ∧
    ((process_input cfg s inp now).moodChangeEvent.isSome →
      (process_input cfg s inp now).state.current_mood
          = (process_input cfg s inp now).newMood ∧
      (process_input cfg s inp now).state.last_state_change = now * 1000 ∧
      (process_input cfg s inp now).state.mood_history =
        pushMax 100 s.mood_history
          { mood := (process_input cfg s inp now).newMood,
            emotion := (process_input cfg s inp now).state.current_emotion,
            gesture := (process_input cfg s inp now).state.current_gesture,
            timestamp := now, duration_ms := 0 }) ∧
    (¬ (process_input cfg s inp now).moodChangeEvent.isSome →
      (process_input cfg s inp now).state.current_mood = s.current_mood ∧
      (process_input cfg s inp now).state.mood_history = s.mood_history ∧
      (process_input cfg s inp now).state.last_state_change = s.last_state_change) := by
  simp only [process_input, can_transition, se_mood, sg_mood, se_hist, sg_hist,
    se_lsc, sg_lsc]
  split
  case isTrue h =>
    simp only [Bool.and_eq_true, decide_eq_true_eq] at h
    refine ⟨?_, fun _ => ⟨rfl, rfl, rfl⟩, fun hn => absurd rfl hn⟩
    simpa using h
  case isFalse h =>
    simp only [Bool.and_eq_true, decide_eq_true_eq] at h
    refine ⟨?_, fun hs => absurd hs (by simp), fun _ => ⟨rfl, rfl, rfl⟩⟩
    simpa using h

theorem C5_cooldown_guard_witness :
    ((process_input defaultSMConfig c5AcceptState c5HappyInput (6/10)).moodChangeEvent.isSome ∧
     (process_input defaultSMConfig c5AcceptState c5HappyInput (6/10)).state.current_mood
        = MoodState.JOYFUL ∧
     (process_input defaultSMConfig c5AcceptState c5HappyInput (6/10)).state.last_state_change
        = 600) ∧
    (¬ (process_input defaultSMConfig c5RejectState c5ThumbInput (2/10)).moodChangeEvent.isSome ∧
     (process_input defaultSMConfig c5RejectState c5ThumbInput (2/10)).state.current_mood
        = MoodState.JOYFUL ∧
     (process_input defaultSMConfig c5RejectState c5ThumbInput (2/10)).state.mood_history
        = []) := by
  have h := C5_cooldown_guard defaultSMConfig c5AcceptState c5HappyInput (6/10)
  have h' := C5_cooldown_guard defaultSMConfig c5RejectState c5ThumbInput (2/10)
  have hacc := h.1.mpr ⟨by decide, by decide⟩
  have hrej : ¬ (process_input defaultSMConfig c5RejectState c5ThumbInput
      (2/10)).moodChangeEvent.isSome := by
    intro habs
    exact absurd (h'.1.mp habs) (by decide)
  refine ⟨⟨hacc, ?_, ?_⟩, ⟨hrej, ?_, ?_⟩⟩
  · exact ((h.2.1 hacc).1).trans (by decide)
  · exact ((h.2.1 hacc).2.1).trans (by decide)
  · exact ((h'.2.2 hrej).1).trans (by decide)
  · exact ((h'.2.2 hrej).2.1).trans (by decide)

/-- C10: `reset` is total and unconditional, lands in the
Neutral/zeroed/emptied state from every state, and applying it twice is
the same as applying it once. -/
theorem C10_reset_total_idempotent (s : State) :
    reset s = initState ∧
    reset (reset s) = reset s ∧
    (reset s).current_mood = MoodState.NEUTRAL ∧
    (reset s).mood_history = [] ∧
    (reset s).emotion_stable_count = 0 ∧
    (reset s).gesture_stable_count = 0 ∧
    (reset s).last_state_change = 0 ∧
    (reset s).last_sfx_trigger = 0 ∧
    (reset s).gesture_start_time = 0 ∧
    (reset s).last_stable_emotion = none ∧
    (reset s).last_stable_gesture = none ∧
    (reset s).current_emotion = none ∧
    (reset s).current_gesture = none := by
  refine ⟨rfl, rfl, rfl, rfl, rfl, rfl, rfl, rfl, rfl, rfl, rfl, rfl, rfl⟩

/-- C1 (code evaluation at the failing input): from the initial state,
three consecutive `Happy @ 0.9` ticks leave the stable emotion absent —
`_stabilize_emotion` compares the raw value against the last *stable*
value, so its counter is reset to 1 on every tick and the threshold 3 is
never reached; the claimed outcome (stable emotion = Happy at tick 3)
does not occur. -/
theorem C1_stability_delay_code_eval :
    (runState defaultSMConfig initState
        [(happyTick 1, 1), (happyTick 2, 2), (happyTick 3, 3)]).current_emotion = none ∧
    (runState defaultSMConfig initState
        [(happyTick 1, 1), (happyTick 2, 2), (happyTick 3, 3)]).last_stable_emotion = none ∧
    (runState defaultSMConfig initState
        [(happyTick 1, 1), (happyTick 2, 2), (happyTick 3, 3)]).emotion_stable_count = 1 := by
  refine ⟨by decide, by decide, by decide⟩

/-- C4 (counterexample): the gesture start timestamp is not governed by
the previous *raw* label. From the initial state, a raw `ThumbUp` at t=1s
sets the timestamp to 1000 ms; repeating the same raw `ThumbUp` at t=2s
moves it to 2000 ms although the raw label did not change (the claim says
it must stay unchanged), and an absent raw label at t=2s instead leaves
it at 1000 ms (the claim says it must reset to zero). -/
theorem C4_timestamp_counterexample :
    (stabilize_gesture initState (some GestureLabel.THUMB_UP) 1).1.gesture_start_time
        = 1000 ∧
    (stabilize_gesture
        (stabilize_gesture initState (some GestureLabel.THUMB_UP) 1).1
        (some GestureLabel.THUMB_UP) 2).1.gesture_start_time = 2000 ∧
    (stabilize_gesture
        (stabilize_gesture initState (some GestureLabel.THUMB_UP) 1).1
        none 2).1.gesture_start_time = 1000 := by
  refine ⟨by decide, by decide, by decide⟩

/-- C4 (amended): the gesture start timestamp resets to the current time
exactly when the raw label differs from the last *stable* label and is
present, resets to zero when it differs from the stable label and is
absent, and is left unchanged when the raw label equals the stable label. -/
theorem C4_timestamp_amended (s : State) (g : Option GestureLabel) (now : ℚ) :
    (stabilize_gesture s g now).1.gesture_start_time =
      (if g = s.last_stable_gesture then s.gesture_start_time
       else if g.isSome then now * 1000 else 0) := by
  by_cases h : g = s.last_stable_gesture <;>
    simp only [stabilize_gesture, h, if_pos, if_neg, not_false_iff] <;> simp

end EmpatheticStateMachine
